import Mathlib

/-!
Shallow embedding of the wait-for-dev-env GitHub action (src/action.js).

The action polls the GitHub deployments API and then an HTTP endpoint in
three bounded-retry loops (discovery, status, reachability), sequenced by
an orchestrator.  Network calls are modelled as oracles: a function from
the attempt index to the response that attempt receives.  Each loop is
modelled as structural recursion over the iteration budget, recording the
outcome, the number of API/HTTP calls made and the number of interval
sleeps performed.
-/

/-- Embeds src/action.js lines 7-8:
`Math.floor(maxTimeoutSec / (checkIntervalInMilliseconds / 1000))`,
with JS numbers modelled as exact rationals. -/
def calculateIterations (maxTimeoutSec checkIntervalInMilliseconds : ℚ) : ℤ :=
  ⌊maxTimeoutSec / (checkIntervalInMilliseconds / 1000)⌋

/-- Result of one bounded-retry poll loop: the outcome (some payload, or
none for the timeout path after the loop exhausts), the number of
API/HTTP attempts made and the number of interval sleeps performed. -/
structure PollResult (α : Type) where
  outcome : Option α
  calls : Nat
  sleeps : Nat
deriving Repr, DecidableEq

/-- Generic bounded-retry loop skeleton shared by the three pollers of
src/action.js (lines 23-51, 71-116, 152-188): at attempt index i with the
given remaining fuel, classify the attempt; a some-result returns
immediately, a none-result sleeps one interval and continues; exhausted
fuel is the timeout path. -/
def pollLoop {α : Type} (classify : Nat → Option α) : Nat → Nat → PollResult α
  | _, 0 => ⟨none, 0, 0⟩
  | i, n + 1 =>
    match classify i with
    | some a => ⟨some a, 1, 0⟩
    | none =>
      let r := pollLoop classify (i + 1) n
      ⟨r.outcome, r.calls + 1, r.sleeps + 1⟩

/-- Embeds src/action.js lines 12-54 (`waitForUrl`).  An attempt is true
when `axios.get` resolves (the lines 32-33 success path) and false when it
throws (any of the catch branches, lines 34-50, which only differ in the
log message and all sleep then continue).  Exhausting the loop reaches
`core.setFailed` on line 53, the timeout outcome. -/
def waitForUrl (attempts : Nat → Bool) (maxTimeout checkIntervalInMilliseconds : ℚ) :
    PollResult Unit :=
  pollLoop (fun i => if attempts i then some () else none) 0
    (calculateIterations maxTimeout checkIntervalInMilliseconds).toNat

/-- A deployment status record as used by src/action.js: `state` and the
optional `environment_url`. -/
structure DeploymentStatus where
  state : String
  environment_url : Option String
deriving Repr, DecidableEq

/-- Result of one `listDeploymentStatuses` call: the call threw (network,
auth, malformed response), or returned a list of statuses, newest first. -/
inductive StatusFetch where
  | err : StatusFetch
  | ok : List DeploymentStatus → StatusFetch
deriving Repr, DecidableEq

/-- Embeds the per-attempt body of `waitForStatus`, src/action.js lines
72-98.  A thrown fetch is caught (line 99) and retried.  Line 79 takes
`statuses.data[0]` when the list is nonempty; line 82 throws (retry) when
there is no status; lines 86-88 return an inactive status when
`allowInactive === true`; lines 90-92 throw (retry) on any state other
than success; lines 94-96 return a success status. -/
def statusClassify (allowInactive : Bool) : StatusFetch → Option DeploymentStatus
  | .err => none
  | .ok data =>
    match data.head? with
    | none => none
    | some status =>
      if allowInactive = true ∧ status.state = "inactive" then some status
      else if status.state ≠ "success" then none
      else some status

/-- Embeds src/action.js lines 56-120 (`waitForStatus`).  Exhausting the
loop reaches `core.setFailed` on lines 117-119, the timeout outcome. -/
def waitForStatus (attempts : Nat → StatusFetch) (allowInactive : Bool)
    (maxTimeout checkIntervalInMilliseconds : ℚ) : PollResult DeploymentStatus :=
  pollLoop (fun i => statusClassify allowInactive (attempts i)) 0
    (calculateIterations maxTimeout checkIntervalInMilliseconds).toNat

/-- A deployment record as used by src/action.js: its id and the creator
login compared against `actorName` on line 164. -/
structure Deployment where
  id : Nat
  creatorLogin : String
deriving Repr, DecidableEq

/-- Result of one `listDeployments` call: the call threw, or returned the
list of deployments in API list order. -/
inductive DeplFetch where
  | err : DeplFetch
  | ok : List Deployment → DeplFetch
deriving Repr, DecidableEq

/-- Embeds the per-attempt body of `waitForDeploymentToStart`,
src/action.js lines 153-185.  A thrown fetch is caught (line 177) and
retried.  Lines 161-165 scan the returned list for the first deployment
whose `creator.login` equals the expected actor name; lines 167-170
return it; on no match the attempt falls through to the sleep. -/
def deplClassify (actorName : String) : DeplFetch → Option Deployment
  | .err => none
  | .ok ds => ds.find? (fun d => d.creatorLogin == actorName)

/-- Embeds src/action.js lines 137-191 (`waitForDeploymentToStart`).
Exhausting the loop returns null (line 190), the absent outcome. -/
def waitForDeploymentToStart (attempts : Nat → DeplFetch) (actorName : String)
    (maxTimeout checkIntervalInMilliseconds : ℚ) : PollResult Deployment :=
  pollLoop (fun i => deplClassify actorName (attempts i)) 0
    (calculateIterations maxTimeout checkIntervalInMilliseconds).toNat

/-- Embeds src/action.js line 226:
`Boolean(core.getInput('allow_inactive')) || false`.  JS `Boolean` on a
string is false exactly on the empty string. -/
def parseAllowInactive (s : String) : Bool :=
  (decide (s ≠ "")) || false

/-- The three poller stages of the orchestrator, in order. -/
inductive Stage where
  | discovery : Stage
  | status : Stage
  | reachability : Stage
deriving Repr, DecidableEq

/-- Environment of one `run` invocation (src/action.js lines 219-318):
the resolved commit sha (none when neither a pull request nor a push sha
is available), the responses each poller attempt receives, the parsed
configuration values, and the behaviour of the Node URL constructor on
the environment-url string (none models `new URL` throwing on an invalid
URL, some h models a successful parse with host h). -/
structure RunEnv where
  sha : Option String
  deplAttempts : Nat → DeplFetch
  statusAttempts : Nat → StatusFetch
  urlAttempts : Nat → Bool
  urlHost : String → Option String
  maxTimeout : ℚ
  checkIntervalMs : ℚ
  allowInactive : Bool
  actorName : String

/-- Observable effects of one `run` invocation: the `core.setFailed`
messages in order, the `core.setOutput` pairs in order, and which poller
stages were entered. -/
structure RunResult where
  failMsgs : List String
  outputs : List (String × String)
  stagesRun : List Stage
deriving Repr, DecidableEq

/-- A run failed when `core.setFailed` was called at least once. -/
def RunResult.failed (r : RunResult) : Bool :=
  !r.failMsgs.isEmpty

/-- Embeds src/action.js lines 219-318 (`run`), with the out-of-scope
collaborators (config parsing, sha resolution, API clients, the URL
constructor) supplied by the environment.  Mirrors the source order:
sha check (lines 258-261); discovery (264-278); status (280-288); then
line 291 reads `status.environment_url` (a TypeError when the status
poller timed out and returned undefined, caught at line 315), line 292
runs `new URL(targetUrl)` (a TypeError when the url is absent or
invalid, caught at line 315), line 294 checks `!targetUrl` (for a string
that survived `new URL`, falsy only for the empty string), lines 303-304
emit the outputs, and lines 309-314 run the reachability poller. -/
def run (env : RunEnv) : RunResult :=
  match env.sha with
  | none => ⟨["Unable to determine SHA. Exiting..."], [], []⟩
  | some _ =>
    let depl := waitForDeploymentToStart env.deplAttempts env.actorName
      env.maxTimeout env.checkIntervalMs
    match depl.outcome with
    | none => ⟨["no deployment found, exiting..."], [], [Stage.discovery]⟩
    | some _ =>
      let st := waitForStatus env.statusAttempts env.allowInactive
        env.maxTimeout env.checkIntervalMs
      match st.outcome with
      | none =>
        ⟨["Timeout reached: Unable to wait for an deployment to be successful",
          "Cannot read properties of undefined (reading 'environment_url')"],
         [], [Stage.discovery, Stage.status]⟩
      | some status =>
        match status.environment_url with
        | none => ⟨["Invalid URL"], [], [Stage.discovery, Stage.status]⟩
        | some targetUrl =>
          match env.urlHost targetUrl with
          | none => ⟨["Invalid URL"], [], [Stage.discovery, Stage.status]⟩
          | some host =>
            if targetUrl = "" then
              ⟨["no target_url found in the status check"], [],
               [Stage.discovery, Stage.status]⟩
            else
              let outs := [("url", targetUrl), ("host", host)]
              let u := waitForUrl env.urlAttempts env.maxTimeout env.checkIntervalMs
              match u.outcome with
              | none =>
                ⟨["Timeout reached: Unable to connect to " ++ targetUrl], outs,
                 [Stage.discovery, Stage.status, Stage.reachability]⟩
              | some _ =>
                ⟨[], outs, [Stage.discovery, Stage.status, Stage.reachability]⟩

section PollLoopLemmas

variable {α : Type}

/-- The loop with an exhausted budget makes no attempt and times out. -/
theorem pollLoop_zero (classify : Nat → Option α) (i : Nat) :
    pollLoop classify i 0 = ⟨none, 0, 0⟩ := rfl

/-- Unfolding one successful attempt. -/
theorem pollLoop_succ_of_some {classify : Nat → Option α} {i : Nat} {a : α}
    (h : classify i = some a) (n : Nat) :
    pollLoop classify i (n + 1) = ⟨some a, 1, 0⟩ := by
  simp [pollLoop, h]

/-- Unfolding one failed attempt: it is caught, consumes one call and one
sleep, and the loop continues at the next index with one unit less fuel. -/
theorem pollLoop_succ_of_none {classify : Nat → Option α} {i : Nat}
    (h : classify i = none) (n : Nat) :
    pollLoop classify i (n + 1) =
      ⟨(pollLoop classify (i + 1) n).outcome,
       (pollLoop classify (i + 1) n).calls + 1,
       (pollLoop classify (i + 1) n).sleeps + 1⟩ := by
  simp [pollLoop, h]

/-- The loop times out exactly when no attempt within the budget
classifies as a success. -/
theorem pollLoop_outcome_eq_none_iff (classify : Nat → Option α) :
    ∀ (n i : Nat), (pollLoop classify i n).outcome = none ↔
      ∀ k, k < n → classify (i + k) = none := by
  intro n
  induction n with
  | zero => intro i; simp [pollLoop_zero]
  | succ m ih =>
    intro i
    cases h : classify i with
    | some a =>
      rw [pollLoop_succ_of_some h]
      simp only [iff_false]
      constructor
      · intro hcontra
        simp at hcontra
      · intro hall
        have := hall 0 (Nat.succ_pos m)
        simp [h] at this
    | none =>
      rw [pollLoop_succ_of_none h]
      simp only
      rw [ih (i + 1)]
      constructor
      · intro hall k hk
        match k with
        | 0 => simpa using h
        | k' + 1 =>
          have := hall k' (Nat.lt_of_succ_lt_succ hk)
          simpa [Nat.add_comm, Nat.add_left_comm] using this
      · intro hall k hk
        have := hall (k + 1) (Nat.succ_lt_succ hk)
        simpa [Nat.add_comm, Nat.add_left_comm] using this

/-- When every attempt within the budget fails, the loop makes exactly
one call and one sleep per budgeted iteration and times out. -/
theorem pollLoop_timeout (classify : Nat → Option α) :
    ∀ (n i : Nat), (∀ k, k < n → classify (i + k) = none) →
      pollLoop classify i n = ⟨none, n, n⟩ := by
  intro n
  induction n with
  | zero => intro i _; exact pollLoop_zero classify i
  | succ m ih =>
    intro i hall
    have h0 : classify i = none := by simpa using hall 0 (Nat.succ_pos m)
    rw [pollLoop_succ_of_none h0]
    have hrest : ∀ k, k < m → classify (i + 1 + k) = none := by
      intro k hk
      have := hall (k + 1) (Nat.succ_lt_succ hk)
      simpa [Nat.add_comm, Nat.add_left_comm] using this
    rw [ih (i + 1) hrest]

/-- When attempt k is the first success and lies within the budget, the
loop returns its payload immediately: k + 1 calls, k sleeps, and the
remaining budget is never consumed. -/
theorem pollLoop_first_success (classify : Nat → Option α) {a : α} :
    ∀ (k i n : Nat), k < n → (∀ j, j < k → classify (i + j) = none) →
      classify (i + k) = some a →
      pollLoop classify i n = ⟨some a, k + 1, k⟩ := by
  intro k
  induction k with
  | zero =>
    intro i n hn hfirst hsucc
    match n, hn with
    | m + 1, _ =>
      simp only [Nat.add_zero] at hsucc
      rw [pollLoop_succ_of_some hsucc]
  | succ k' ih =>
    intro i n hn hfirst hsucc
    match n, hn with
    | m + 1, hn =>
      have h0 : classify i = none := by simpa using hfirst 0 (Nat.succ_pos k')
      rw [pollLoop_succ_of_none h0]
      have hrest : ∀ j, j < k' → classify (i + 1 + j) = none := by
        intro j hj
        have := hfirst (j + 1) (Nat.succ_lt_succ hj)
        simpa [Nat.add_comm, Nat.add_left_comm] using this
      have hsucc' : classify (i + 1 + k') = some a := by
        have : i + 1 + k' = i + (k' + 1) := by omega
        rw [this]; exact hsucc
      rw [ih (i + 1) m (Nat.lt_of_succ_lt_succ hn) hrest hsucc']

end PollLoopLemmas

/-- Evaluation helper: with max_timeout 10 s and a 2000 ms interval the
budget is 5 iterations. -/
theorem calcIter_10_2000 : calculateIterations 10 2000 = 5 := by
  unfold calculateIterations
  norm_num

/-- Evaluation helper: the same budget, as loop fuel. -/
theorem calcIter_10_2000_toNat : (calculateIterations 10 2000).toNat = 5 := by
  rw [calcIter_10_2000]
  rfl

/-- C4: for every positive maxTimeoutSeconds and positive
intervalMilliseconds, the retry budget calculator returns exactly
floor(maxTimeoutSeconds * 1000 / intervalMilliseconds), which equals
floor(maxTimeoutSeconds / (intervalMilliseconds / 1000)), and the result
is a non-negative integer. -/
theorem calculateIterations_spec (mt iv : ℚ) (h1 : 0 < mt) (h2 : 0 < iv) :
    calculateIterations mt iv = ⌊mt * 1000 / iv⌋ ∧
    calculateIterations mt iv = ⌊mt / (iv / 1000)⌋ ∧
    0 ≤ calculateIterations mt iv := by
  have heq : mt / (iv / 1000) = mt * 1000 / iv := div_div_eq_mul_div mt iv 1000
  refine ⟨?_, rfl, ?_⟩
  · unfold calculateIterations
    rw [heq]
  · unfold calculateIterations
    have hq : 0 ≤ mt / (iv / 1000) := by positivity
    exact Int.floor_nonneg.mpr hq

/-- Witness for C4 at maxTimeout 10 s, interval 2000 ms. -/
theorem calculateIterations_spec_witness :
    (0 : ℚ) < 10 ∧ (0 : ℚ) < 2000 ∧
    (calculateIterations 10 2000 = ⌊(10 : ℚ) * 1000 / 2000⌋ ∧
     calculateIterations 10 2000 = ⌊(10 : ℚ) / (2000 / 1000)⌋ ∧
     0 ≤ calculateIterations 10 2000) :=
  ⟨by norm_num, by norm_num,
   calculateIterations_spec 10 2000 (by norm_num) (by norm_num)⟩

/-- C1: each of the three pollers, on any sequence of attempt results,
times out exactly when no attempt within the iteration budget classifies
as a success; since the outcome is a single Option value, the invocation
yields either one success payload or one timeout signal, never both,
never neither, and no attempt fault escapes the loop. -/
theorem poller_outcome_dichotomy (ua : Nat → Bool) (sa : Nat → StatusFetch)
    (da : Nat → DeplFetch) (ai : Bool) (an : String) (mt iv : ℚ) :
    ((waitForUrl ua mt iv).outcome = none ↔
      ∀ k, k < (calculateIterations mt iv).toNat → ua k = false) ∧
    ((waitForStatus sa ai mt iv).outcome = none ↔
      ∀ k, k < (calculateIterations mt iv).toNat → statusClassify ai (sa k) = none) ∧
    ((waitForDeploymentToStart da an mt iv).outcome = none ↔
      ∀ k, k < (calculateIterations mt iv).toNat → deplClassify an (da k) = none) := by
  refine ⟨?_, ?_, ?_⟩
  · unfold waitForUrl
    rw [pollLoop_outcome_eq_none_iff]
    constructor
    · intro h k hk
      have := h k hk
      cases hua : ua k
      · rfl
      · rw [Nat.zero_add, hua] at this
        simp at this
    · intro h k hk
      rw [Nat.zero_add, h k hk]
      simp
  · unfold waitForStatus
    rw [pollLoop_outcome_eq_none_iff]
    constructor
    · intro h k hk
      simpa using h k hk
    · intro h k hk
      simpa using h k hk
  · unfold waitForDeploymentToStart
    rw [pollLoop_outcome_eq_none_iff]
    constructor
    · intro h k hk
      simpa using h k hk
    · intro h k hk
      simpa using h k hk

/-- C2: per-attempt classification of the status poller.  A some-result
arises exactly from a returned, nonempty status list whose most recent
entry has state success, or state inactive with allowInactive enabled;
the classification depends only on the most recent entry; and the loop
returns the classified status of the first successful attempt. -/
theorem waitForStatus_classification (ai : Bool) :
    (∀ (f : StatusFetch) (st : DeploymentStatus),
      statusClassify ai f = some st ↔
        ∃ data, f = StatusFetch.ok data ∧ data.head? = some st ∧
          (st.state = "success" ∨ (ai = true ∧ st.state = "inactive"))) ∧
    (∀ (st : DeploymentStatus) (rest1 rest2 : List DeploymentStatus),
      statusClassify ai (StatusFetch.ok (st :: rest1)) =
        statusClassify ai (StatusFetch.ok (st :: rest2))) ∧
    (∀ (sa : Nat → StatusFetch) (k : Nat) (st : DeploymentStatus) (mt iv : ℚ),
      k < (calculateIterations mt iv).toNat →
      (∀ j, j < k → statusClassify ai (sa j) = none) →
      statusClassify ai (sa k) = some st →
      (waitForStatus sa ai mt iv).outcome = some st) := by
  refine ⟨?_, ?_, ?_⟩
  · intro f st
    cases f with
    | err => simp [statusClassify]
    | ok data =>
      cases hd : data.head? with
      | none => simp [statusClassify, hd]
      | some status =>
        simp only [statusClassify, hd, StatusFetch.ok.injEq, exists_eq_left',
          Option.some.injEq]
        split_ifs with h1 h2
        · simp only [Option.some.injEq]
          constructor
          · rintro rfl
            exact ⟨rfl, Or.inr ⟨h1.1, h1.2⟩⟩
          · rintro ⟨rfl, _⟩
            rfl
        · simp only [false_iff, not_and]
          rintro rfl hor
          rcases hor with hs | hia
          · exact h2 hs
          · exact h1 hia
        · push_neg at h2
          simp only [Option.some.injEq]
          constructor
          · rintro rfl
            exact ⟨rfl, Or.inl h2⟩
          · rintro ⟨rfl, _⟩
            rfl
  · intro st rest1 rest2
    simp [statusClassify]
  · intro sa k st mt iv hk hfirst hsucc
    unfold waitForStatus
    rw [pollLoop_first_success (fun i => statusClassify ai (sa i)) k 0 _ hk
      (by intro j hj; simpa using hfirst j hj) (by simpa using hsucc)]

/-- Witness for C2: with every attempt returning one success status, the
status poller returns it on attempt 0. -/
theorem waitForStatus_classification_witness :
    (waitForStatus (fun _ => StatusFetch.ok [⟨"success", some "https://x.example"⟩])
      false 10 2000).outcome = some ⟨"success", some "https://x.example"⟩ :=
  (waitForStatus_classification false).2.2
    (fun _ => StatusFetch.ok [⟨"success", some "https://x.example"⟩]) 0
    ⟨"success", some "https://x.example"⟩ 10 2000
    (by rw [calcIter_10_2000_toNat]; decide)
    (by intro j hj; exact absurd hj (Nat.not_lt_zero j))
    (by simp [statusClassify])

/-- C3: on one listing, the discovery scan returns the first deployment
in API list order whose creator login equals the expected actor, even
when later entries also match; and when attempt k is the first attempt
with a match, the poller returns that deployment with k + 1 calls, never
consuming the remaining iterations. -/
theorem waitForDeploymentToStart_first_match :
    (∀ (an : String) (pre post : List Deployment) (d : Deployment),
      d.creatorLogin = an → (∀ d2 ∈ pre, d2.creatorLogin ≠ an) →
      deplClassify an (DeplFetch.ok (pre ++ d :: post)) = some d) ∧
    (∀ (an : String) (da : Nat → DeplFetch) (k : Nat) (d : Deployment) (mt iv : ℚ),
      k < (calculateIterations mt iv).toNat →
      (∀ j, j < k → deplClassify an (da j) = none) →
      deplClassify an (da k) = some d →
      waitForDeploymentToStart da an mt iv = ⟨some d, k + 1, k⟩) := by
  constructor
  · intro an pre post d hd hpre
    unfold deplClassify
    induction pre with
    | nil =>
      simp only [List.nil_append]
      rw [List.find?_cons_of_pos]
      simp [hd]
    | cons p ps ih =>
      simp only [List.cons_append]
      rw [List.find?_cons_of_neg]
      · exact ih (fun d2 hmem => hpre d2 (List.mem_cons_of_mem p hmem))
      · simp only [beq_iff_eq]
        exact hpre p (List.mem_cons_self p ps)
  · intro an da k d mt iv hk hfirst hsucc
    unfold waitForDeploymentToStart
    rw [pollLoop_first_success (fun i => deplClassify an (da i)) k 0 _ hk
      (by intro j hj; simpa using hfirst j hj) (by simpa using hsucc)]

/-- Witness for C3: the actor's deployment is second in the list behind
a non-matching one and ahead of a later matching one, and is found on
attempt 0. -/
theorem waitForDeploymentToStart_first_match_witness :
    deplClassify "bot-x" (DeplFetch.ok [⟨1, "alice"⟩, ⟨42, "bot-x"⟩, ⟨43, "bot-x"⟩]) =
      some ⟨42, "bot-x"⟩ ∧
    waitForDeploymentToStart
      (fun _ => DeplFetch.ok [⟨1, "alice"⟩, ⟨42, "bot-x"⟩, ⟨43, "bot-x"⟩])
      "bot-x" 10 2000 = ⟨some ⟨42, "bot-x"⟩, 1, 0⟩ := by
  constructor
  · exact waitForDeploymentToStart_first_match.1 "bot-x" [⟨1, "alice"⟩]
      [⟨43, "bot-x"⟩] ⟨42, "bot-x"⟩ rfl (by decide)
  · exact waitForDeploymentToStart_first_match.2 "bot-x" _ 0 ⟨42, "bot-x"⟩ 10 2000
      (by rw [calcIter_10_2000_toNat]; decide)
      (by intro j hj; exact absurd hj (Nat.not_lt_zero j))
      (by simp [deplClassify])

/-- C7: in each poller, a transport or API error on a reached attempt k
is caught at the attempt boundary, is followed by one interval sleep,
and consumes exactly one iteration of budget; when attempt k + 1 is
still within the budget and succeeds, the whole invocation returns the
success outcome with k + 2 calls and k + 1 sleeps — the error is never
fatal mid-loop. -/
theorem poller_error_retry_success (k : Nat) (mt iv : ℚ)
    (hk : k + 1 < (calculateIterations mt iv).toNat) :
    (∀ (ua : Nat → Bool), (∀ j, j < k → ua j = false) → ua k = false →
      ua (k + 1) = true →
      waitForUrl ua mt iv = ⟨some (), k + 2, k + 1⟩) ∧
    (∀ (sa : Nat → StatusFetch) (ai : Bool) (st : DeploymentStatus),
      (∀ j, j < k → statusClassify ai (sa j) = none) → sa k = StatusFetch.err →
      statusClassify ai (sa (k + 1)) = some st →
      waitForStatus sa ai mt iv = ⟨some st, k + 2, k + 1⟩) ∧
    (∀ (da : Nat → DeplFetch) (an : String) (d : Deployment),
      (∀ j, j < k → deplClassify an (da j) = none) → da k = DeplFetch.err →
      deplClassify an (da (k + 1)) = some d →
      waitForDeploymentToStart da an mt iv = ⟨some d, k + 2, k + 1⟩) := by
  refine ⟨?_, ?_, ?_⟩
  · intro ua hja hka hsucc
    unfold waitForUrl
    rw [pollLoop_first_success (fun i => if ua i then some () else none) (k + 1) 0 _ hk
      ?_ ?_]
    · intro j hj
      simp only [Nat.zero_add]
      rcases Nat.lt_succ_iff_lt_or_eq.mp hj with hlt | heq
      · rw [hja j hlt]
        simp
      · rw [heq, hka]
        simp
    · simp [hsucc]
  · intro sa ai st hja hka hsucc
    unfold waitForStatus
    rw [pollLoop_first_success (fun i => statusClassify ai (sa i)) (k + 1) 0 _ hk
      ?_ ?_]
    · intro j hj
      simp only [Nat.zero_add]
      rcases Nat.lt_succ_iff_lt_or_eq.mp hj with hlt | heq
      · exact hja j hlt
      · rw [heq, hka]
        rfl
    · simpa using hsucc
  · intro da an d hja hka hsucc
    unfold waitForDeploymentToStart
    rw [pollLoop_first_success (fun i => deplClassify an (da i)) (k + 1) 0 _ hk
      ?_ ?_]
    · intro j hj
      simp only [Nat.zero_add]
      rcases Nat.lt_succ_iff_lt_or_eq.mp hj with hlt | heq
      · exact hja j hlt
      · rw [heq, hka]
        rfl
    · simpa using hsucc

/-- Witness for C7 at k = 1 of 5 iterations: each poller errors on
attempt 1 after a clean miss on attempt 0, succeeds on attempt 2, and
returns success with 3 calls and 2 sleeps. -/
theorem poller_error_retry_success_witness :
    waitForUrl (fun i => decide (i = 2)) 10 2000 = ⟨some (), 3, 2⟩ ∧
    waitForStatus
      (fun i => if i = 0 then StatusFetch.ok [] else if i = 1 then StatusFetch.err
        else StatusFetch.ok [⟨"success", some "https://x.example"⟩])
      false 10 2000 = ⟨some ⟨"success", some "https://x.example"⟩, 3, 2⟩ ∧
    waitForDeploymentToStart
      (fun i => if i = 0 then DeplFetch.ok [] else if i = 1 then DeplFetch.err
        else DeplFetch.ok [⟨42, "bot-x"⟩])
      "bot-x" 10 2000 = ⟨some ⟨42, "bot-x"⟩, 3, 2⟩ := by
  have h := poller_error_retry_success 1 10 2000
    (by rw [calcIter_10_2000_toNat]; decide)
  refine ⟨?_, ?_, ?_⟩
  · exact h.1 (fun i => decide (i = 2)) (by decide) (by decide) (by decide)
  · exact h.2.1 _ false ⟨"success", some "https://x.example"⟩
      (by intro j hj; interval_cases j; simp [statusClassify])
      (by simp) (by simp [statusClassify])
  · exact h.2.2 _ "bot-x" ⟨42, "bot-x"⟩
      (by intro j hj; interval_cases j; simp [deplClassify])
      (by simp) (by simp [deplClassify])

/-- C9: the parsed allowInactive flag is true for every non-empty input
string — including the string "false" — and false only for the empty
(unset) input. -/
theorem allow_inactive_parsing :
    parseAllowInactive "false" = true ∧
    ∀ s, parseAllowInactive s = true ↔ s ≠ "" := by
  constructor
  · rfl
  · intro s
    simp [parseAllowInactive]

/-- C10: when maxTimeoutSeconds * 1000 < intervalMilliseconds, the
computed iteration count is 0, so each poller makes no API or HTTP call,
sleeps never, and immediately yields its timeout/absent outcome. -/
theorem zero_iteration_budget (mt iv : ℚ) (h0 : 0 ≤ mt) (hiv : 0 < iv)
    (hlt : mt * 1000 < iv) :
    calculateIterations mt iv = 0 ∧
    (∀ ua, waitForUrl ua mt iv = ⟨none, 0, 0⟩) ∧
    (∀ sa ai, waitForStatus sa ai mt iv = ⟨none, 0, 0⟩) ∧
    (∀ da an, waitForDeploymentToStart da an mt iv = ⟨none, 0, 0⟩) := by
  have hpos : (0 : ℚ) < iv / 1000 := by positivity
  have hzero : calculateIterations mt iv = 0 := by
    unfold calculateIterations
    rw [Int.floor_eq_zero_iff]
    constructor
    · exact div_nonneg h0 (le_of_lt hpos)
    · rw [div_lt_one hpos, lt_div_iff₀ (by norm_num : (0 : ℚ) < 1000)]
      exact hlt
  have htn : (calculateIterations mt iv).toNat = 0 := by
    rw [hzero]
    rfl
  refine ⟨hzero, ?_, ?_, ?_⟩
  · intro ua
    unfold waitForUrl
    rw [htn, pollLoop_zero]
  · intro sa ai
    unfold waitForStatus
    rw [htn, pollLoop_zero]
  · intro da an
    unfold waitForDeploymentToStart
    rw [htn, pollLoop_zero]

/-- Witness for C10 at max_timeout 1 s with the default 2 s interval
(2000 ms): zero iterations, zero calls, immediate timeout. -/
theorem zero_iteration_budget_witness :
    (0 : ℚ) ≤ 1 ∧ (0 : ℚ) < 2000 ∧ (1 : ℚ) * 1000 < 2000 ∧
    (calculateIterations 1 2000 = 0 ∧
     (∀ ua, waitForUrl ua 1 2000 = ⟨none, 0, 0⟩) ∧
     (∀ sa ai, waitForStatus sa ai 1 2000 = ⟨none, 0, 0⟩) ∧
     (∀ da an, waitForDeploymentToStart da an 1 2000 = ⟨none, 0, 0⟩)) :=
  ⟨by norm_num, by norm_num, by norm_num,
   zero_iteration_budget 1 2000 (by norm_num) (by norm_num) (by norm_num)⟩

/-- C6: when the sha is resolved but the discovery poller exhausts its
budget with no matching attempt, it returns the absent outcome and the
orchestrator reports the fatal no-deployment failure, emits no outputs,
and never enters the status or reachability stage. -/
theorem run_discovery_timeout_halts (env : RunEnv) (s : String)
    (hsha : env.sha = some s)
    (hnone : ∀ k, k < (calculateIterations env.maxTimeout env.checkIntervalMs).toNat →
      deplClassify env.actorName (env.deplAttempts k) = none) :
    (waitForDeploymentToStart env.deplAttempts env.actorName
      env.maxTimeout env.checkIntervalMs).outcome = none ∧
    run env = ⟨["no deployment found, exiting..."], [], [Stage.discovery]⟩ := by
  have hout : (waitForDeploymentToStart env.deplAttempts env.actorName
      env.maxTimeout env.checkIntervalMs).outcome = none := by
    unfold waitForDeploymentToStart
    rw [pollLoop_outcome_eq_none_iff]
    intro k hk
    simpa using hnone k hk
  refine ⟨hout, ?_⟩
  unfold run
  rw [hsha]
  simp only [hout]

/-- Witness for C6: sha resolved, every discovery attempt throws, budget
5; the orchestrator stops after the discovery stage. -/
theorem run_discovery_timeout_halts_witness :
    (waitForDeploymentToStart (fun _ => DeplFetch.err) "bot-x" 10 2000).outcome = none ∧
    run { sha := some "abc123", deplAttempts := fun _ => DeplFetch.err,
          statusAttempts := fun _ => StatusFetch.err, urlAttempts := fun _ => false,
          urlHost := fun _ => none, maxTimeout := 10, checkIntervalMs := 2000,
          allowInactive := false, actorName := "bot-x" } =
      ⟨["no deployment found, exiting..."], [], [Stage.discovery]⟩ :=
  run_discovery_timeout_halts
    { sha := some "abc123", deplAttempts := fun _ => DeplFetch.err,
      statusAttempts := fun _ => StatusFetch.err, urlAttempts := fun _ => false,
      urlHost := fun _ => none, maxTimeout := 10, checkIntervalMs := 2000,
      allowInactive := false, actorName := "bot-x" }
    "abc123" rfl (fun _ _ => rfl)

/-- Environment in which every stage up to reachability succeeds and
every reachability attempt fails: discovery matches on attempt 0, the
status poller sees a success status with a valid environment URL on
attempt 0, and every HTTP GET against that URL errors. -/
def reachTimeoutEnv : RunEnv where
  sha := some "abc123"
  deplAttempts := fun _ => DeplFetch.ok [⟨42, "bot-x"⟩]
  statusAttempts := fun _ =>
    StatusFetch.ok [⟨"success", some "https://preview-42.example.com"⟩]
  urlAttempts := fun _ => false
  urlHost := fun _ => some "preview-42.example.com"
  maxTimeout := 10
  checkIntervalMs := 2000
  allowInactive := false
  actorName := "bot-x"

/-- Counterexample to C5 as stated: on a reachability-poller timeout the
run fails, yet the url and host outputs were already emitted (lines
303-304 of src/action.js run before the reachability loop). -/
theorem run_reachability_timeout_emits_outputs :
    run reachTimeoutEnv =
      ⟨["Timeout reached: Unable to connect to https://preview-42.example.com"],
       [("url", "https://preview-42.example.com"),
        ("host", "preview-42.example.com")],
       [Stage.discovery, Stage.status, Stage.reachability]⟩ ∧
    (run reachTimeoutEnv).failed = true ∧
    ("url", "https://preview-42.example.com") ∈ (run reachTimeoutEnv).outputs ∧
    ("host", "preview-42.example.com") ∈ (run reachTimeoutEnv).outputs := by
  have hrun : run reachTimeoutEnv =
      ⟨["Timeout reached: Unable to connect to https://preview-42.example.com"],
       [("url", "https://preview-42.example.com"),
        ("host", "preview-42.example.com")],
       [Stage.discovery, Stage.status, Stage.reachability]⟩ := by
    simp only [run, reachTimeoutEnv, waitForDeploymentToStart, waitForStatus,
      waitForUrl, calcIter_10_2000_toNat]
    decide
  refine ⟨hrun, ?_, ?_, ?_⟩ <;> rw [hrun] <;> decide

/-- C5 as amended: on every failing run, no outputs were emitted if and
only if the reachability stage never began; equivalently, the only
failing runs with outputs are reachability-poller timeouts, where the
url and host outputs were emitted before the failure signal. -/
theorem run_failure_outputs_iff_reachability (env : RunEnv)
    (hfail : (run env).failed = true) :
    ((run env).outputs = [] ↔ Stage.reachability ∉ (run env).stagesRun) := by
  unfold run at hfail ⊢
  cases hsha : env.sha with
  | none => simp [hsha]
  | some s =>
    simp only [hsha] at hfail ⊢
    cases hdep : (waitForDeploymentToStart env.deplAttempts env.actorName
        env.maxTimeout env.checkIntervalMs).outcome with
    | none => simp [hdep]
    | some d =>
      simp only [hdep] at hfail ⊢
      cases hst : (waitForStatus env.statusAttempts env.allowInactive
          env.maxTimeout env.checkIntervalMs).outcome with
      | none => simp [hst]
      | some status =>
        simp only [hst] at hfail ⊢
        cases hurl : status.environment_url with
        | none => simp [hurl]
        | some targetUrl =>
          simp only [hurl] at hfail ⊢
          cases hhost : env.urlHost targetUrl with
          | none => simp [hhost]
          | some host =>
            simp only [hhost] at hfail ⊢
            by_cases hempty : targetUrl = ""
            · simp [hempty]
            · simp only [hempty, if_false] at hfail ⊢
              cases hreach : (waitForUrl env.urlAttempts env.maxTimeout
                  env.checkIntervalMs).outcome with
              | none => simp [hreach]
              | some u =>
                simp only [hreach] at hfail
                simp [RunResult.failed] at hfail

/-- Witness for the amended C5 on a failing run with no resolved sha:
the run fails, and no outputs were emitted, matching the fact that the
reachability stage never began. -/
theorem run_failure_outputs_iff_reachability_witness :
    ((run { sha := none, deplAttempts := fun _ => DeplFetch.err,
            statusAttempts := fun _ => StatusFetch.err, urlAttempts := fun _ => false,
            urlHost := fun _ => none, maxTimeout := 10, checkIntervalMs := 2000,
            allowInactive := false, actorName := "bot-x" }).outputs = [] ↔
      Stage.reachability ∉
        (run { sha := none, deplAttempts := fun _ => DeplFetch.err,
               statusAttempts := fun _ => StatusFetch.err, urlAttempts := fun _ => false,
               urlHost := fun _ => none, maxTimeout := 10, checkIntervalMs := 2000,
               allowInactive := false, actorName := "bot-x" }).stagesRun) :=
  run_failure_outputs_iff_reachability
    { sha := none, deplAttempts := fun _ => DeplFetch.err,
      statusAttempts := fun _ => StatusFetch.err, urlAttempts := fun _ => false,
      urlHost := fun _ => none, maxTimeout := 10, checkIntervalMs := 2000,
      allowInactive := false, actorName := "bot-x" } rfl

/-- Environment in which discovery succeeds and the status poller
returns a success status whose environment_url is absent. -/
def missingUrlEnv : RunEnv where
  sha := some "abc123"
  deplAttempts := fun _ => DeplFetch.ok [⟨42, "bot-x"⟩]
  statusAttempts := fun _ => StatusFetch.ok [⟨"success", none⟩]
  urlAttempts := fun _ => false
  urlHost := fun _ => none
  maxTimeout := 10
  checkIntervalMs := 2000
  allowInactive := false
  actorName := "bot-x"

/-- C8, evaluated at the failing input: when the final status has no
environment URL, line 292 of src/action.js (`new URL(targetUrl)`) throws
before the line 294 guard, so the run fails with the caught TypeError
message and the dedicated report

  no target_url found in the status check

is never emitted; the failure is also not a timeout report. -/
theorem run_missing_environment_url_report :
    run missingUrlEnv = ⟨["Invalid URL"], [], [Stage.discovery, Stage.status]⟩ ∧
    "no target_url found in the status check" ∉ (run missingUrlEnv).failMsgs ∧
    (run missingUrlEnv).failed = true := by
  have hrun : run missingUrlEnv =
      ⟨["Invalid URL"], [], [Stage.discovery, Stage.status]⟩ := by
    simp only [run, missingUrlEnv, waitForDeploymentToStart, waitForStatus,
      waitForUrl, calcIter_10_2000_toNat]
    decide
  refine ⟨hrun, ?_, ?_⟩ <;> rw [hrun] <;> decide
